import Mathlib

/-!
Verification of the invoice-processing pipeline
(validation stage, workflow orchestrator, extraction agent, Excel export)
against its natural-language specification.

The Python source is shallowly embedded:
* Python numbers are modelled exactly: `int` as `Int`, `float` as `PyNum`,
  an exact decimal fixed-point number (mantissa over a power of ten).  All
  numeric literals appearing in the pipeline (amounts, `0.01`, `round(_, 2)`)
  are decimal, so decimal arithmetic reproduces the comparisons the code
  performs.
* Python values (the contents of the JSON-like dicts the pipeline passes
  around) are the inductive `Value`; dicts are association lists with the
  keys assumed unique, as Python dict keys are.
* `raise` / `except` become `Except String`; the message carried is the
  exception text.
* the external collaborators (the LlamaParse SDK call, the spreadsheet
  file) are parameters of the embedded functions: an SDK outcome value,
  and the prior row list of the destination file.
-/

/-- Python `float`, modelled as the exact decimal `man / 10 ^ exp`. -/
structure PyNum where
  man : Int
  exp : Nat
deriving DecidableEq, Repr

/-- Numeric strict order on decimals: `x < y`. -/
def PyNum.lt (x y : PyNum) : Bool :=
  decide (x.man * 10 ^ y.exp < y.man * 10 ^ x.exp)

/-- Numeric non-strict order on decimals: `x ≤ y`. -/
def PyNum.le (x y : PyNum) : Bool :=
  decide (x.man * 10 ^ y.exp ≤ y.man * 10 ^ x.exp)

/-- Numeric non-strict order as a proposition (`x ≤ y`). -/
def PyNum.Le (x y : PyNum) : Prop :=
  x.man * 10 ^ y.exp ≤ y.man * 10 ^ x.exp

instance (x y : PyNum) : Decidable (PyNum.Le x y) := by
  unfold PyNum.Le; infer_instance

/-- Exact product of two decimals. -/
def PyNum.mul (x y : PyNum) : PyNum :=
  ⟨x.man * y.man, x.exp + y.exp⟩

/-- Exact difference of two decimals. -/
def PyNum.sub (x y : PyNum) : PyNum :=
  ⟨x.man * 10 ^ y.exp - y.man * 10 ^ x.exp, x.exp + y.exp⟩

/-- Absolute value of a decimal. -/
def PyNum.abs (x : PyNum) : PyNum :=
  ⟨|x.man|, x.exp⟩

/-- Round-half-even of the quotient `a / b` (`b > 0`), as Python `round`
computes it on an exact value. -/
def roundHalfEvenInt (a : Int) (b : Int) : Int :=
  let q := a.ediv b
  let r := a.emod b
  if 2 * r < b then q
  else if 2 * r > b then q + 1
  else if q.emod 2 = 0 then q else q + 1

/-- Python `round(x, 2)` on the exact decimal `x` (banker's rounding). -/
def pyRound2 (x : PyNum) : PyNum :=
  if x.exp ≤ 2 then x
  else ⟨roundHalfEvenInt x.man ((10 : Int) ^ (x.exp - 2)), 2⟩

/-- Python values as the pipeline's dicts hold them. -/
inductive Value where
  | null
  | bool (b : Bool)
  | int (z : Int)
  | num (x : PyNum)
  | str (s : String)
  | list (l : List Value)
  | dict (entries : List (String × Value))

/-- A Python dict: association list with unique keys. -/
def Data := List (String × Value)

/-- Python `v is None`. -/
def isNull : Value → Bool
  | .null => true
  | _ => false

/-- Python truthiness of a value. -/
def pyTruthy : Value → Bool
  | .null => false
  | .bool b => b
  | .int z => decide (z ≠ 0)
  | .num x => decide (x.man ≠ 0)
  | .str s => decide (s ≠ "")
  | .list l => ¬l.isEmpty
  | .dict d => ¬d.isEmpty

/-- Python `d.get(k)`: the value under `k`, `None` when absent. -/
def pyGet (d : Data) (k : String) : Value :=
  (List.lookup k d).getD .null

/-- The Python type name of a value, as it appears in `TypeError` texts. -/
def pyTypeName : Value → String
  | .null => "NoneType"
  | .bool _ => "bool"
  | .int _ => "int"
  | .num _ => "float"
  | .str _ => "str"
  | .list _ => "list"
  | .dict _ => "dict"

/-- A string wrapped in single quotes, as CPython error texts print names. -/
def quote39 (s : String) : String :=
  let q := String.singleton (Char.ofNat 39)
  q ++ s ++ q

/-- Digits of an ASCII-decimal numeral to a natural number. -/
def digitsToNat (cs : List Char) : Nat :=
  cs.foldl (fun acc c => acc * 10 + (c.toNat - 48)) 0

/-- Characters Python `float()` strips from both ends of its argument. -/
def isPyWs (c : Char) : Bool :=
  c = ' ' ∨ c = '\t' ∨ c = '\n' ∨ c = '\r'

/-- The digits-and-one-dot body of a decimal numeral: `float()`'s accepted
form after sign stripping (exponent, `inf`/`nan` and underscore forms are
not used by the pipeline and are not modelled). -/
def parseUnsignedFloat (cs : List Char) : Option PyNum :=
  let intPart := cs.takeWhile Char.isDigit
  let rest := cs.dropWhile Char.isDigit
  match rest with
  | [] => if intPart.isEmpty then none else some ⟨(digitsToNat intPart : Nat), 0⟩
  | '.' :: frac =>
      if frac.all Char.isDigit ∧ ¬(intPart.isEmpty ∧ frac.isEmpty) then
        some ⟨(digitsToNat (intPart ++ frac) : Nat), frac.length⟩
      else none
  | _ => none

/-- Python `float(s)` on a string: strip surrounding whitespace, optional
sign, decimal body. -/
def parseFloatString (s : String) : Option PyNum :=
  let cs := ((s.toList.dropWhile isPyWs).reverse.dropWhile isPyWs).reverse
  match cs with
  | '+' :: rest => parseUnsignedFloat rest
  | '-' :: rest => (parseUnsignedFloat rest).map fun x => ⟨-x.man, x.exp⟩
  | _ => parseUnsignedFloat cs

/-- Python `float(v)`: the coerced number, or the exception text
(`ValueError` for a bad string, `TypeError` for a non-numeric type). -/
def pyFloat : Value → Except String PyNum
  | .num x => .ok x
  | .int z => .ok ⟨z, 0⟩
  | .bool b => .ok ⟨if b then 1 else 0, 0⟩
  | .str s =>
      match parseFloatString s with
      | some x => .ok x
      | none => .error ("could not convert string to float: " ++ quote39 s)
  | v => .error ("float() argument must be a string or a real number, not "
      ++ quote39 (pyTypeName v))

/-- Drop trailing decimal zeros of `man / 10 ^ exp`. -/
def stripZeros : Int → Nat → Int × Nat
  | m, 0 => (m, 0)
  | m, e + 1 => if m.emod 10 = 0 then stripZeros (m.ediv 10) e else (m, e + 1)

/-- Left-pad a numeral with zeros to `n` characters. -/
def padZeros (s : String) (n : Nat) : String :=
  String.mk (List.replicate (n - s.toList.length) '0' ++ s.toList)

/-- The `repr` of a Python float whose value is a short decimal
(`6.0`, `6.5`, `-2.37`): integer part, dot, fractional digits, with at
least one digit after the dot.  This is exactly what an f-string
interpolates for such a float. -/
def fmtFloat (x : PyNum) : String :=
  let (m, e) := stripZeros x.man x.exp
  if e = 0 then toString m ++ ".0"
  else
    let sign := if m < 0 then "-" else ""
    let a := m.natAbs
    sign ++ toString (a / 10 ^ e) ++ "." ++ padZeros (toString (a % 10 ^ e)) e

/-- Python `str(v)` as used in validation feedback texts.  Containers never
reach these texts in the pipeline, so their `repr` is abbreviated. -/
def pyStr : Value → String
  | .null => "None"
  | .bool true => "True"
  | .bool false => "False"
  | .int z => toString z
  | .num x => fmtFloat x
  | .str s => s
  | .list _ => "[...]"
  | .dict _ => "\x7b...\x7d"

/-- Split a character list at every dash. -/
def splitDash : List Char → List (List Char)
  | [] => [[]]
  | c :: rest =>
    let r := splitDash rest
    if c = '-' then [] :: r
    else
      match r with
      | h :: t => (c :: h) :: t
      | [] => [[c]]

/-- Day count of a month in the proleptic Gregorian calendar. -/
def daysInMonth (y m : Nat) : Nat :=
  if m = 2 then
    if y % 4 = 0 ∧ (y % 100 ≠ 0 ∨ y % 400 = 0) then 29 else 28
  else if m = 4 ∨ m = 6 ∨ m = 9 ∨ m = 11 then 30
  else 31

/-- One or two ASCII digits valued 1..12: the `%m` pattern of CPython's
`_strptime` (`1[0-2]|0[1-9]|[1-9]`). -/
def monthOk (cs : List Char) : Bool :=
  cs.all Char.isDigit ∧
    ((cs.length = 1 ∨ cs.length = 2) ∧ 1 ≤ digitsToNat cs ∧ digitsToNat cs ≤ 12)

/-- One or two ASCII digits valued 1..31: the `%d` pattern of CPython's
`_strptime` (`3[01]|[12]\d|0[1-9]|[1-9]`). -/
def dayOk (cs : List Char) : Bool :=
  cs.all Char.isDigit ∧
    ((cs.length = 1 ∨ cs.length = 2) ∧ 1 ≤ digitsToNat cs ∧ digitsToNat cs ≤ 31)

/-- Python `datetime.strptime(s, "%Y-%m-%d")` succeeding: exactly four
digits of year (ASCII, as `_strptime`'s `\d\d\d\d`), a month and a day in
the `%m`/`%d` patterns, nothing left over, and a constructible
`datetime` (year at least `MINYEAR = 1`, day within the month). -/
def isValidDate (s : String) : Bool :=
  match splitDash s.toList with
  | [y, m, d] =>
    y.length = 4 ∧ y.all Char.isDigit ∧ monthOk m ∧ dayOk d ∧
      1 ≤ digitsToNat y ∧ digitsToNat d ≤ daysInMonth (digitsToNat y) (digitsToNat m)
  | _ => false

/-- The required top-level fields of `_validate_data`. -/
def requiredFields : List String :=
  ["invoice_number", "date", "vendor_name", "total_amount", "line_items"]

/-- The required per-line-item fields of `_validate_data`. -/
def itemRequiredFields : List String :=
  ["description", "quantity", "unit_price", "total_price"]

/-- Python `field not in data or data[field] is None`. -/
def fieldMissing (d : Data) (f : String) : Bool :=
  match List.lookup f d with
  | none => true
  | some v => isNull v

/-- The date-format block of `_validate_data`: `Except.error` is the
uncaught `TypeError` `strptime` raises on a non-string argument (the
block catches only `ValueError`); `some msg` is an early `return` with
feedback; `none` falls through to the next block. -/
def dateStep (d : Data) : Except String (Option String) :=
  match List.lookup "date" d with
  | some v =>
    if pyTruthy v then
      match v with
      | .str s =>
        if isValidDate s then .ok none
        else .ok (some ("Invalid date format. Expected YYYY-MM-DD, got " ++ s))
      | _ => .error ("strptime() argument 1 must be str, not " ++ pyTypeName v)
    else .ok none
  | none => .ok none

/-- The total-amount block of `_validate_data`: `some msg` is an early
`return` with feedback, `none` falls through. -/
def totalStep (d : Data) : Option String :=
  match List.lookup "total_amount" d with
  | some v =>
    if isNull v then none
    else
      match pyFloat v with
      | .ok t => if PyNum.le t ⟨0, 0⟩ then some "Total amount must be greater than 0" else none
      | .error _ => some ("Invalid total amount: " ++ pyStr v)
  | none => none

/-- One iteration of the line-item loop of `_validate_data` (items are
1-indexed): the first violated check's feedback, or `none`. -/
def validateItem (i : Nat) (item : Value) : Option String :=
  match item with
  | .dict entries =>
    let missing := itemRequiredFields.filter (fieldMissing entries)
    if ¬missing.isEmpty then
      some ("Line item " ++ toString i ++ " missing required fields: "
        ++ String.intercalate ", " missing)
    else
      match pyFloat (pyGet entries "quantity") with
      | .error e => some ("Line item " ++ toString i ++ " has invalid numeric values: " ++ e)
      | .ok q =>
      match pyFloat (pyGet entries "unit_price") with
      | .error e => some ("Line item " ++ toString i ++ " has invalid numeric values: " ++ e)
      | .ok u =>
      match pyFloat (pyGet entries "total_price") with
      | .error e => some ("Line item " ++ toString i ++ " has invalid numeric values: " ++ e)
      | .ok t =>
        if PyNum.le q ⟨0, 0⟩ ∨ PyNum.lt u ⟨0, 0⟩ ∨ PyNum.lt t ⟨0, 0⟩ then
          some ("Line item " ++ toString i ++ " has invalid numeric values")
        else
          let calcTotal := pyRound2 (q.mul u)
          if PyNum.lt ⟨1, 2⟩ ((calcTotal.sub t).abs) then
            some ("Line item " ++ toString i ++ ": quantity * unit_price ("
              ++ fmtFloat calcTotal ++ ") does not match total_price (" ++ fmtFloat t ++ ")")
          else none
  | _ => some ("Line item " ++ toString i ++ " is not a valid object")

/-- The line-item loop of `_validate_data`: first failing item's feedback
in ascending index order, or `none` when every item passes. -/
def validateItems : Nat → List Value → Option String
  | _, [] => none
  | i, item :: rest =>
    match validateItem i item with
    | some msg => some msg
    | none => validateItems (i + 1) rest

/-- The line-items block of `_validate_data`: runs only when `line_items`
is present and is a list. -/
def itemsStep (d : Data) : Option String :=
  match List.lookup "line_items" d with
  | some (.list items) => validateItems 1 items
  | _ => none

/-- `DataValidationAgent._validate_data`: required-field presence, then
date format, then total amount, then the line items, returning at the
first violated rule; `Except.error` is an uncaught exception. -/
def validateData (d : Data) : Except String (Bool × String) :=
  let missing := requiredFields.filter (fieldMissing d)
  if ¬missing.isEmpty then
    .ok (false, "Missing required fields: " ++ String.intercalate ", " missing)
  else
    match dateStep d with
    | .error e => .error e
    | .ok (some msg) => .ok (false, msg)
    | .ok none =>
      match totalStep d with
      | some msg => .ok (false, msg)
      | none =>
        match itemsStep d with
        | some msg => .ok (false, msg)
        | none => .ok (true, "")

/-- The workflow `Context` dataclass.  `job_id`/`job_status` hold whatever
the extraction result carried (`None` before extraction).
`structured_data` is `None` or a dict.  `validation_feedback` is not a
dataclass field: it is set dynamically by the validation agent, so `none`
models the attribute being absent (`getattr` default applies), `some none`
the attribute set to Python `None`, and `some (some s)` set to a string.
The write-only `extracted_text` attribute is read by no stage and is not
modelled. -/
structure Ctx where
  invoice_path : String
  job_id : Value := .null
  job_status : Value := .null
  structured_data : Option Data := none
  markdown_docs : Value := .null
  text_docs : Value := .null
  validation_feedback : Option (Option String) := none

/-- Python truthiness of the `structured_data` attribute (`None` and the
empty dict are falsy). -/
def structuredTruthy : Option Data → Bool
  | none => false
  | some d => ¬d.isEmpty

/-- `DataValidationAgent.process`: raises (`Except.error`) when
`structured_data` is falsy or `_validate_data` raises; otherwise stores
the feedback string (or `None` on success) on the context and returns the
verdict with the updated context. -/
def validationProcess (ctx : Ctx) : Except String (Bool × Ctx) :=
  if ¬structuredTruthy ctx.structured_data then
    .error "No structured data found in context"
  else
    match ctx.structured_data with
    | none => .error "No structured data found in context"
    | some d =>
      match validateData d with
      | .error e => .error e
      | .ok (isValid, feedback) =>
        if ¬isValid then .ok (false, { ctx with validation_feedback := some (some feedback) })
        else .ok (true, { ctx with validation_feedback := some none })

/-- The uniform response envelope `process_invoice` returns.  `none` in an
`Option` field models the key being absent from the Python dict. -/
structure Envelope where
  status : String
  message : Option String
  invoice_path : String
  extracted_data : Option Value
  validation_feedback : Option Value
  error : Option String
  details : Option (List (String × Value))

/-- `context.structured_data` as the envelope stores it on the
validation-error path (`None` becomes JSON null). -/
def structuredToValue : Option Data → Value
  | none => .null
  | some d => .dict d

/-- Python `context.structured_data or {}`. -/
def structuredOrEmpty : Option Data → Value
  | none => .dict []
  | some d => if d.isEmpty then .dict [] else .dict d

/-- Python `getattr(context, "validation_feedback", [])`. -/
def getattrFeedback : Option (Option String) → Value
  | none => .list []
  | some none => .null
  | some (some s) => .str s

/-- `InvoiceProcessingWorkflow.process_invoice`, with the extraction
agent's behaviour (an external, network-bound collaborator) passed in as
the function `extract` from the freshly initialized context to the
context it returns or the exception it raises. -/
def processInvoice (fileExists : Bool) (extract : Ctx → Except String Ctx)
    (invoicePath : String) : Envelope :=
  if ¬fileExists then
    { status := "error", message := none, invoice_path := invoicePath,
      extracted_data := none, validation_feedback := none,
      error := some ("File not found: " ++ invoicePath),
      details := some [("file_exists", .bool false)] }
  else
    match extract { invoice_path := invoicePath } with
    | .error e =>
      { status := "error", message := none, invoice_path := invoicePath,
        extracted_data := none, validation_feedback := none,
        error := some ("Failed to extract data: " ++ e),
        details := some [("extraction_error", .bool true)] }
    | .ok ctx =>
      match validationProcess ctx with
      | .error e =>
        { status := "error", message := none, invoice_path := invoicePath,
          extracted_data := some (structuredToValue ctx.structured_data),
          validation_feedback := none,
          error := some ("Validation error: " ++ e),
          details := some [("validation_error", .bool true)] }
      | .ok (isValid, ctx2) =>
        { status := if isValid then "success" else "warning",
          message := some (if isValid then "Validation passed" else "Validation failed"),
          invoice_path := invoicePath,
          extracted_data := some (structuredOrEmpty ctx2.structured_data),
          validation_feedback := some (getattrFeedback ctx2.validation_feedback),
          error := none, details := none }

/-- Look a key up in an envelope's `details` dict. -/
def detailsLookup (env : Envelope) (k : String) : Option Value :=
  match env.details with
  | none => none
  | some d => List.lookup k d

/-- What the LlamaParse SDK call (`parser.aparse` plus the result-object
accessors) produced on one invocation — external collaborator data. -/
structure SDKResult where
  jobId : Value
  jobStatus : Value
  structuredData : Value
  markdownDocs : Value
  textDocs : Value

/-- An exception from the SDK call: a `LlamaCloudError` or any other
exception, with its text. -/
structure SDKErr where
  isCloud : Bool
  msg : String

/-- `LlamaParseAgent._process_with_parser`: on SDK success returns the
result dict (always a dict — never `None`); on an SDK exception raises
`LlamaParseError` with the corresponding prefix. -/
def processWithParser (sdk : Except SDKErr SDKResult) :
    Except String (Option (List (String × Value))) :=
  match sdk with
  | .ok r => .ok (some [("job_id", r.jobId), ("status", r.jobStatus),
      ("structured_data", r.structuredData), ("markdown_docs", r.markdownDocs),
      ("text_docs", r.textDocs)])
  | .error e =>
    .error ((if e.isCloud then "LlamaParse error: " else "Error processing file: ") ++ e.msg)

/-- Store `result.get(...)` fields on the context as the effective
(second) `LlamaParseAgent.process` does.  It reads the key `"data"`,
which the `_process_with_parser` result dict never contains, so
`structured_data` receives Python `None`; a hypothetical non-dict,
non-`None` value under `"data"` also maps to `none` (unreachable for
payloads built by `processWithParser`, see
`processWithParser_get_data_null`). -/
def storeParseResult (ctx : Ctx) (payload : List (String × Value)) : Ctx :=
  { ctx with
    job_id := pyGet payload "job_id",
    job_status := pyGet payload "status",
    structured_data :=
      match pyGet payload "data" with
      | .dict d => some d
      | _ => none }

/-- The effective `LlamaParseAgent.process` (the second definition of the
name in the class body, which overrides the first): file-existence check,
standard parse, OCR retry only when the first call returned `None`, and
storage of the result on the context.  The second component counts how
many times `_process_with_parser` was invoked. -/
def llamaParseProcess (fileExists : Bool) (sdkStd sdkOcr : Except SDKErr SDKResult)
    (ctx : Ctx) : Except String Ctx × Nat :=
  if ¬fileExists then
    (.error ("Invoice file not found: " ++ ctx.invoice_path), 0)
  else
    match processWithParser sdkStd with
    | .error e => (.error ("Failed to process document: " ++ e), 1)
    | .ok none =>
      match processWithParser sdkOcr with
      | .error e => (.error ("Failed to process document: " ++ e), 2)
      | .ok none =>
        (.error ("Failed to process document: Failed to extract data using both standard and OCR parsers"), 2)
      | .ok (some payload) => (.ok (storeParseResult ctx payload), 2)
    | .ok (some payload) => (.ok (storeParseResult ctx payload), 1)

/-- `ExcelWriterAgent._flatten_data` on the line-items list: each dict
item contributes its four sub-fields under positional names; non-dict
items are skipped. -/
def flattenItems : Nat → List Value → List (String × Value)
  | _, [] => []
  | i, .dict entries :: rest =>
    (itemRequiredFields.map fun f => ("item_" ++ toString i ++ "_" ++ f, pyGet entries f))
      ++ flattenItems (i + 1) rest
  | i, _ :: rest => flattenItems (i + 1) rest

/-- `ExcelWriterAgent._flatten_data`: the four scalar fields (via `.get`,
so `None` when absent), then the exploded line items. -/
def flattenData (d : Data) : Data :=
  (["invoice_number", "date", "vendor_name", "total_amount"].map fun k => (k, pyGet d k))
    ++ (match List.lookup "line_items" d with
        | some (.list items) => flattenItems 1 items
        | _ => [])

/-- `ExcelWriterAgent._append_to_excel`: the rows the destination holds
after the call, given the rows it held before (`none` when the file did
not exist).  Reading, `pd.concat` with `ignore_index` and the rewrite of
the sheet preserve the existing rows in order and add the flattened
record after them. -/
def appendToExcel : Option (List Data) → Data → List Data
  | some rows, d => rows ++ [flattenData d]
  | none, d => [flattenData d]

/-! ## Helper lemmas and concrete data -/

/-- A value that `float()` coerces is not `None`. -/
theorem pyFloat_ok_not_null {v : Value} {x : PyNum} (h : pyFloat v = .ok x) :
    isNull v = false := by
  cases v <;> simp_all [pyFloat, isNull]

/-- `¬(x < y)` on decimals is `y ≤ x`. -/
theorem PyNum.lt_eq_false_iff {x y : PyNum} : PyNum.lt x y = false ↔ PyNum.Le y x := by
  simp [PyNum.lt, PyNum.Le, not_lt]

/-- The result dict `_process_with_parser` builds never carries a key
`"data"`, so the effective `process`'s `result.get('data')` is always
Python `None`. -/
theorem processWithParser_get_data_null {sdk : Except SDKErr SDKResult}
    {payload : List (String × Value)} (h : processWithParser sdk = .ok (some payload)) :
    pyGet payload "data" = .null := by
  cases sdk with
  | error e => simp [processWithParser] at h
  | ok r =>
    simp [processWithParser] at h
    subst h
    simp [pyGet, List.lookup]

/-- A line item every check of `_validate_data` accepts: a dict with the
four sub-fields present and non-null, coercible to numbers, positive
quantity, non-negative prices, and `round(quantity*unit_price, 2)` within
`0.01` of `total_price`. -/
def itemOK (item : Value) : Prop :=
  ∃ entries q u t, item = .dict entries ∧
    (itemRequiredFields.filter (fieldMissing entries)).isEmpty = true ∧
    pyFloat (pyGet entries "quantity") = .ok q ∧
    pyFloat (pyGet entries "unit_price") = .ok u ∧
    pyFloat (pyGet entries "total_price") = .ok t ∧
    PyNum.le q ⟨0, 0⟩ = false ∧
    PyNum.lt u ⟨0, 0⟩ = false ∧
    PyNum.lt t ⟨0, 0⟩ = false ∧
    PyNum.lt ⟨1, 2⟩ (((pyRound2 (q.mul u)).sub t).abs) = false

/-- An accepted line item produces no feedback at any index. -/
theorem validateItem_of_itemOK {item : Value} (h : itemOK item) (i : Nat) :
    validateItem i item = none := by
  obtain ⟨entries, q, u, t, rfl, hmiss, hq, hu, ht, hqp, hun, htn, hc⟩ := h
  simp [validateItem, hmiss, hq, hu, ht, hqp, hun, htn, hc]

/-- A list of accepted line items produces no feedback from the loop. -/
theorem validateItems_of_all {items : List Value} (h : ∀ item ∈ items, itemOK item) :
    ∀ i, validateItems i items = none := by
  induction items with
  | nil => intro i; rfl
  | cons item rest ih =>
    intro i
    have h1 := validateItem_of_itemOK (h item (by simp)) i
    have h2 := ih (fun x hx => h x (by simp [hx]))
    simp [validateItems, h1, h2]

/-- A line item passing every check: `quantity=2, unit_price=3.00,
total_price=6.00`. -/
def goodItem : Value :=
  .dict [("description", .str "Widget"), ("quantity", .int 2),
    ("unit_price", .num ⟨3, 0⟩), ("total_price", .num ⟨6, 0⟩)]

/-- The same line item with `total_price=6.50`. -/
def badItem : Value :=
  .dict [("description", .str "Widget"), ("quantity", .int 2),
    ("unit_price", .num ⟨3, 0⟩), ("total_price", .num ⟨65, 1⟩)]

/-- A fully valid extracted-fields mapping. -/
def goodData : Data :=
  [("invoice_number", .str "INV-1"), ("date", .str "2024-01-15"),
    ("vendor_name", .str "Acme"), ("total_amount", .num ⟨6, 0⟩),
    ("line_items", .list [goodItem])]

/-- Fields violating two rules at once: a malformed date and a negative
total amount. -/
def badDateData : Data :=
  [("invoice_number", .str "INV-1"), ("date", .str "15/01/2024"),
    ("vendor_name", .str "Acme"), ("total_amount", .num ⟨-5, 0⟩),
    ("line_items", .list [goodItem])]

/-- Fields with `date` absent and `total_amount` null: two missing
required keys. -/
def missingData : Data :=
  [("invoice_number", .str "INV-1"), ("vendor_name", .str "Acme"),
    ("total_amount", .null), ("line_items", .list [goodItem])]

/-- Fields valid in every respect except that `line_items` is empty. -/
def emptyItemsData : Data :=
  [("invoice_number", .str "INV-1"), ("date", .str "2024-01-15"),
    ("vendor_name", .str "Acme"), ("total_amount", .num ⟨6, 0⟩),
    ("line_items", .list [])]

/-- Fields whose first violation sits in the line items: valid header
fields, a first item passing every check, a second item failing the
consistency check, and a third that is not even a dict. -/
def itemOrderData : Data :=
  [("invoice_number", .str "INV-1"), ("date", .str "2024-01-15"),
    ("vendor_name", .str "Acme"), ("total_amount", .num ⟨6, 0⟩),
    ("line_items", .list [goodItem, badItem, .null])]

/-- Every check of `_validate_data` passing: required fields present, a
well-formed non-empty date string, a positive coercible total, and a
`line_items` list all of whose items pass every per-item check. -/
theorem validateData_clean (d : Data) (ds : String) (vt : Value) (t : PyNum)
    (items : List Value)
    (hm : (requiredFields.filter (fieldMissing d)).isEmpty = true)
    (hd : List.lookup "date" d = some (.str ds))
    (hds : isValidDate ds = true)
    (ht0 : List.lookup "total_amount" d = some vt)
    (htc : pyFloat vt = .ok t)
    (htp : PyNum.le t ⟨0, 0⟩ = false)
    (hli : List.lookup "line_items" d = some (.list items))
    (hit : ∀ item ∈ items, itemOK item) :
    validateData d = .ok (true, "") := by
  have hne : ds ≠ "" := by
    intro h
    rw [h] at hds
    exact absurd hds (by decide)
  have hdate : dateStep d = .ok none := by
    simp [dateStep, hd, pyTruthy, hne, hds]
  have htot : totalStep d = none := by
    simp [totalStep, ht0, pyFloat_ok_not_null htc, htc, htp]
  have hitems : itemsStep d = none := by
    simp [itemsStep, hli, validateItems_of_all hit]
  simp [validateData, hm, hdate, htot, hitems]

/-- When every item before position `pre.length` passes and the item
there fails with message `msg`, the loop reports `msg` (1-indexed from
`i`), never reaching the items after it. -/
theorem validateItems_first_failure (pre post : List Value) (item : Value) (msg : String)
    (hpre : ∀ it ∈ pre, itemOK it) :
    ∀ i, validateItem (i + pre.length) item = some msg →
      validateItems i (pre ++ item :: post) = some msg := by
  induction pre with
  | nil =>
    intro i hitem
    simp only [List.length_nil, Nat.add_zero] at hitem
    simp [validateItems, hitem]
  | cons a rest ih =>
    intro i hitem
    have ha := validateItem_of_itemOK (hpre a (by simp)) i
    have hidx : (i + 1) + rest.length = i + (a :: rest).length := by
      rw [List.length_cons]
      omega
    have htail := ih (fun x hx => hpre x (by simp [hx])) (i + 1) (by rw [hidx]; exact hitem)
    simp [validateItems, ha, htail]

/-! ## Claim theorems -/

/-- C1 (counterexample): on fields violating both the date-format rule and
the positive-total rule, `_validate_data` returns only the single date
message — feedback does not contain an entry for every violated rule. -/
theorem validate_accumulates_all_failures_cex :
    validateData badDateData
      = .ok (false, "Invalid date format. Expected YYYY-MM-DD, got 15/01/2024")
    ∧ List.lookup "total_amount" badDateData = some (.num ⟨-5, 0⟩)
    ∧ PyNum.le ⟨-5, 0⟩ ⟨0, 0⟩ = true :=
  ⟨rfl, rfl, rfl⟩

/-- C1 (amended): `_validate_data` stops at the first violated rule and
returns a single message for it, following the whole validation order:
missing required fields are reported first whatever else is wrong; with
required fields passing, a malformed date is reported whatever the later
fields contain; with the date check also passing, the total-amount
message is reported whatever the line items contain; and with the total
also passing, the first failing line item (in ascending 1-indexed order,
the items before it all passing) supplies the message, with items after
it never inspected. -/
theorem validate_reports_first_failure_only
    (d : Data) (s msg : String) (pre post : List Value) (item : Value) :
    ((requiredFields.filter (fieldMissing d)).isEmpty = false →
      validateData d = .ok (false, "Missing required fields: "
        ++ String.intercalate ", " (requiredFields.filter (fieldMissing d))))
    ∧ ((requiredFields.filter (fieldMissing d)).isEmpty = true →
        List.lookup "date" d = some (.str s) → s ≠ "" → isValidDate s = false →
        validateData d = .ok (false, "Invalid date format. Expected YYYY-MM-DD, got " ++ s))
    ∧ ((requiredFields.filter (fieldMissing d)).isEmpty = true →
        dateStep d = .ok none → totalStep d = some msg →
        validateData d = .ok (false, msg))
    ∧ ((requiredFields.filter (fieldMissing d)).isEmpty = true →
        dateStep d = .ok none → totalStep d = none →
        List.lookup "line_items" d = some (.list (pre ++ item :: post)) →
        (∀ it ∈ pre, itemOK it) →
        validateItem (1 + pre.length) item = some msg →
        validateData d = .ok (false, msg)) := by
  refine ⟨?_, ?_, ?_, ?_⟩
  · intro hm
    simp [validateData, hm]
  · intro hm hd hne hbad
    have hdate : dateStep d
        = .ok (some ("Invalid date format. Expected YYYY-MM-DD, got " ++ s)) := by
      simp [dateStep, hd, pyTruthy, hne, hbad]
    simp [validateData, hm, hdate]
  · intro hm hdate htot
    simp [validateData, hm, hdate, htot]
  · intro hm hdate htot hli hpre hitem
    have hstep : itemsStep d = some msg := by
      simp only [itemsStep, hli]
      exact validateItems_first_failure pre post item msg hpre 1 hitem
    simp [validateData, hm, hdate, htot, hstep]

/-- C1 (witness): the date conjunct applied to `badDateData`, and the
line-item conjunct applied to fields whose second of three items is the
first to fail — the message carries index 2 and the third item is never
reached. -/
theorem validate_reports_first_failure_only_witness :
    validateData badDateData
      = .ok (false, "Invalid date format. Expected YYYY-MM-DD, got " ++ "15/01/2024")
    ∧ validateData itemOrderData
      = .ok (false,
          "Line item 2: quantity * unit_price (6.0) does not match total_price (6.5)") := by
  constructor
  · exact (validate_reports_first_failure_only badDateData "15/01/2024" "" [] [] .null).2.1
      (by decide) rfl (by decide) (by decide)
  · refine (validate_reports_first_failure_only itemOrderData "2024-01-15"
      "Line item 2: quantity * unit_price (6.0) does not match total_price (6.5)"
      [goodItem] [.null] badItem).2.2.2
      (by decide) rfl rfl rfl ?_ rfl
    intro it hmem
    rw [List.mem_singleton] at hmem
    subst hmem
    exact ⟨[("description", .str "Widget"), ("quantity", .int 2),
      ("unit_price", .num ⟨3, 0⟩), ("total_price", .num ⟨6, 0⟩)],
      ⟨2, 0⟩, ⟨3, 0⟩, ⟨6, 0⟩, rfl, rfl, rfl, rfl, rfl, rfl, rfl, rfl, rfl⟩

/-- C5: when one or more required top-level keys are absent or null,
`_validate_data` returns `isValid = false` with a single feedback entry,
and the keys that entry lists are exactly the required keys that are
absent or null. -/
theorem missing_required_keys_reported (d : Data)
    (h : requiredFields.filter (fieldMissing d) ≠ []) :
    validateData d
      = .ok (false, "Missing required fields: "
          ++ String.intercalate ", " (requiredFields.filter (fieldMissing d)))
    ∧ ∀ f, f ∈ requiredFields.filter (fieldMissing d)
        ↔ f ∈ requiredFields ∧ fieldMissing d f = true := by
  have hb : (requiredFields.filter (fieldMissing d)).isEmpty = false := by
    cases hF : (requiredFields.filter (fieldMissing d)).isEmpty
    · rfl
    · exact absurd (List.isEmpty_iff.mp hF) h
  constructor
  · simp [validateData, hb]
  · intro f
    exact List.mem_filter

/-- C5 (witness): fields with `date` absent and `total_amount` null. -/
theorem missing_required_keys_reported_witness :
    requiredFields.filter (fieldMissing missingData) ≠ []
    ∧ String.intercalate ", " (requiredFields.filter (fieldMissing missingData))
        = "date, total_amount"
    ∧ validateData missingData
        = .ok (false, "Missing required fields: "
            ++ String.intercalate ", " (requiredFields.filter (fieldMissing missingData))) :=
  ⟨by decide, by decide, (missing_required_keys_reported missingData (by decide)).1⟩

/-- C6: for a line item whose four sub-fields are present and coerce to
sign-valid numbers, the consistency check passes exactly when
`round(quantity * unit_price, 2)` is within `0.01` of `total_price`;
concretely, `quantity=2, unit_price=3.00, total_price=6.00` passes and
`total_price=6.50` yields the mismatch message citing computed total
`6.0` and the item index. -/
theorem line_item_consistency_within_tolerance (i : Nat)
    (entries : List (String × Value)) (q u t : PyNum)
    (hmiss : (itemRequiredFields.filter (fieldMissing entries)).isEmpty = true)
    (hq : pyFloat (pyGet entries "quantity") = .ok q)
    (hu : pyFloat (pyGet entries "unit_price") = .ok u)
    (ht : pyFloat (pyGet entries "total_price") = .ok t)
    (hqp : PyNum.le q ⟨0, 0⟩ = false)
    (hun : PyNum.lt u ⟨0, 0⟩ = false)
    (htn : PyNum.lt t ⟨0, 0⟩ = false) :
    (validateItem i (.dict entries) = none
      ↔ PyNum.Le (((pyRound2 (q.mul u)).sub t).abs) ⟨1, 2⟩)
    ∧ validateItem 1 goodItem = none
    ∧ validateItem 1 badItem
        = some "Line item 1: quantity * unit_price (6.0) does not match total_price (6.5)" := by
  refine ⟨?_, rfl, rfl⟩
  cases hlt : PyNum.lt ⟨1, 2⟩ (((pyRound2 (q.mul u)).sub t).abs) with
  | false =>
    simp [validateItem, hmiss, hq, hu, ht, hqp, hun, htn, hlt]
    exact PyNum.lt_eq_false_iff.mp hlt
  | true =>
    simp [validateItem, hmiss, hq, hu, ht, hqp, hun, htn, hlt]
    intro hle
    rw [PyNum.lt_eq_false_iff.mpr hle] at hlt
    exact absurd hlt (by simp)

/-- C6 (witness): the tolerance equivalence applied to the passing
concrete item. -/
theorem line_item_consistency_within_tolerance_witness :
    PyNum.Le (((pyRound2 ((⟨2, 0⟩ : PyNum).mul ⟨3, 0⟩)).sub ⟨6, 0⟩).abs) ⟨1, 2⟩
    ∧ validateItem 1 (.dict [("description", .str "Widget"), ("quantity", .int 2),
        ("unit_price", .num ⟨3, 0⟩), ("total_price", .num ⟨6, 0⟩)]) = none :=
  ⟨by decide,
    (line_item_consistency_within_tolerance 1
      [("description", .str "Widget"), ("quantity", .int 2),
        ("unit_price", .num ⟨3, 0⟩), ("total_price", .num ⟨6, 0⟩)]
      ⟨2, 0⟩ ⟨3, 0⟩ ⟨6, 0⟩ (by decide) rfl rfl rfl rfl rfl rfl).1.mpr (by decide)⟩

/-- C7: fields with all five required keys present and non-null, a
well-formed date, a positive coercible total and internally consistent
line items validate cleanly: `isValid = true` and empty feedback. -/
theorem all_valid_fields_pass_validation (d : Data) (ds : String) (vt : Value)
    (t : PyNum) (items : List Value)
    (hm : (requiredFields.filter (fieldMissing d)).isEmpty = true)
    (hd : List.lookup "date" d = some (.str ds))
    (hds : isValidDate ds = true)
    (ht0 : List.lookup "total_amount" d = some vt)
    (htc : pyFloat vt = .ok t)
    (htp : PyNum.le t ⟨0, 0⟩ = false)
    (hli : List.lookup "line_items" d = some (.list items))
    (hit : ∀ item ∈ items, itemOK item) :
    validateData d = .ok (true, "") :=
  validateData_clean d ds vt t items hm hd hds ht0 htc htp hli hit

/-- C7 (witness): the fully valid concrete fields. -/
theorem all_valid_fields_pass_validation_witness :
    validateData goodData = .ok (true, "") := by
  refine all_valid_fields_pass_validation goodData "2024-01-15" (.num ⟨6, 0⟩) ⟨6, 0⟩
    [goodItem] (by decide) rfl (by decide) rfl rfl rfl rfl ?_
  intro item hmem
  rw [List.mem_singleton] at hmem
  subst hmem
  exact ⟨[("description", .str "Widget"), ("quantity", .int 2),
    ("unit_price", .num ⟨3, 0⟩), ("total_price", .num ⟨6, 0⟩)],
    ⟨2, 0⟩, ⟨3, 0⟩, ⟨6, 0⟩, rfl, rfl, rfl, rfl, rfl, rfl, rfl, rfl, rfl⟩

/-- C8 (counterexample): fields valid in every other respect whose
`line_items` is the empty list are accepted — `_validate_data` returns
`isValid = true`, not `false`. -/
theorem empty_line_items_rejected_cex :
    validateData emptyItemsData = .ok (true, "")
    ∧ List.lookup "line_items" emptyItemsData = some (.list []) :=
  ⟨rfl, rfl⟩

/-- C8 (amended): `_validate_data` does not check that `line_items` is
non-empty; otherwise-valid fields with an empty `line_items` list return
`isValid = true` with empty feedback. -/
theorem empty_line_items_accepted (d : Data) (ds : String) (vt : Value) (t : PyNum)
    (hm : (requiredFields.filter (fieldMissing d)).isEmpty = true)
    (hd : List.lookup "date" d = some (.str ds))
    (hds : isValidDate ds = true)
    (ht0 : List.lookup "total_amount" d = some vt)
    (htc : pyFloat vt = .ok t)
    (htp : PyNum.le t ⟨0, 0⟩ = false)
    (hli : List.lookup "line_items" d = some (.list [])) :
    validateData d = .ok (true, "") :=
  validateData_clean d ds vt t [] hm hd hds ht0 htc htp hli (by intro item h; cases h)

/-- C8 (witness): the amended theorem applied to the concrete
empty-line-items fields. -/
theorem empty_line_items_accepted_witness :
    validateData emptyItemsData = .ok (true, "") :=
  empty_line_items_accepted emptyItemsData "2024-01-15" (.num ⟨6, 0⟩) ⟨6, 0⟩
    (by decide) rfl (by decide) rfl rfl rfl rfl

/-- C10: when extraction leaves `structured_data` as `None` or as an empty
mapping, the validation agent raises instead of returning a verdict, and
the orchestrator returns an error envelope tagged `validation_error` —
never a `warning` envelope listing missing fields. -/
theorem empty_structured_data_is_fatal (p : String) (d : Option Data)
    (h : d = none ∨ d = some []) :
    validationProcess { invoice_path := p, structured_data := d }
      = .error "No structured data found in context"
    ∧ (processInvoice true (fun c => .ok { c with structured_data := d }) p).status
        = "error"
    ∧ detailsLookup (processInvoice true (fun c => .ok { c with structured_data := d }) p)
        "validation_error" = some (.bool true)
    ∧ (processInvoice true (fun c => .ok { c with structured_data := d }) p).status
        ≠ "warning" := by
  rcases h with rfl | rfl <;>
    exact ⟨rfl, rfl, rfl,
      fun hcon => absurd (show ("error" : String) = "warning" from hcon) (by decide)⟩

/-- C10 (witness): the theorem applied to `None` structured data. -/
theorem empty_structured_data_is_fatal_witness :
    validationProcess { invoice_path := "inv.pdf", structured_data := none }
      = .error "No structured data found in context"
    ∧ (processInvoice true (fun c => .ok { c with structured_data := none }) "inv.pdf").status
        = "error" :=
  ⟨(empty_structured_data_is_fatal "inv.pdf" none (Or.inl rfl)).1,
    (empty_structured_data_is_fatal "inv.pdf" none (Or.inl rfl)).2.1⟩

/-- C4 (counterexample): after a successful extraction whose fields
validate cleanly, the envelope's `validation_feedback` is Python `None`
(JSON null), not an empty sequence: the validation agent stores `None` on
success and the orchestrator passes it through. -/
theorem envelope_success_feedback_cex :
    (processInvoice true (fun c => .ok { c with structured_data := some goodData })
        "inv.pdf").validation_feedback = some Value.null
    ∧ (processInvoice true (fun c => .ok { c with structured_data := some goodData })
        "inv.pdf").status = "success"
    ∧ Value.null ≠ Value.list [] :=
  ⟨rfl, rfl, fun h => Value.noConfusion h⟩

/-- C4 (amended): whenever extraction succeeds the orchestrator returns an
envelope (it is a total function): status `success` with
`validation_feedback` set to `None` — not an empty sequence — and
`extracted_data` equal to the structured fields when validation passes,
and status `warning` carrying the structured fields and the single
feedback message string when validation fails. -/
theorem envelope_from_successful_extraction (p : String) (d : Data)
    (hne : d.isEmpty = false) :
    (∀ m, validateData d = .ok (true, m) →
      processInvoice true (fun c => .ok { c with structured_data := some d }) p
        = { status := "success", message := some "Validation passed", invoice_path := p,
            extracted_data := some (.dict d), validation_feedback := some Value.null,
            error := none, details := none })
    ∧ (∀ m, validateData d = .ok (false, m) →
      processInvoice true (fun c => .ok { c with structured_data := some d }) p
        = { status := "warning", message := some "Validation failed", invoice_path := p,
            extracted_data := some (.dict d), validation_feedback := some (.str m),
            error := none, details := none }) := by
  constructor <;> intro m hv <;>
    simp [processInvoice, validationProcess, structuredTruthy, hne, hv,
      structuredOrEmpty, getattrFeedback]

/-- C4 (witness): the amended theorem applied to the fully valid concrete
fields. -/
theorem envelope_from_successful_extraction_witness :
    processInvoice true (fun c => .ok { c with structured_data := some goodData }) "inv.pdf"
      = { status := "success", message := some "Validation passed", invoice_path := "inv.pdf",
          extracted_data := some (.dict goodData), validation_feedback := some Value.null,
          error := none, details := none } :=
  (envelope_from_successful_extraction "inv.pdf" goodData rfl).1 "" rfl

/-- C2: the orchestrator never produces an export-tagged envelope: every
key its `details` dict can carry is one of `file_exists`,
`extraction_error`, `validation_error` — `process_invoice` has no export
stage at all (its caller `app.py` passes an output path that its
signature does not accept). -/
theorem orchestrator_never_export_tags (fe : Bool) (extract : Ctx → Except String Ctx)
    (p k : String)
    (h : detailsLookup (processInvoice fe extract p) k ≠ none) :
    k = "file_exists" ∨ k = "extraction_error" ∨ k = "validation_error" := by
  cases fe with
  | false =>
    by_cases hk : k = "file_exists"
    · exact Or.inl hk
    · have hb : (k == "file_exists") = false := by simp [hk]
      exact absurd (by simp [processInvoice, detailsLookup, List.lookup, hb]) h
  | true =>
    cases hex : extract { invoice_path := p } with
    | error e =>
      by_cases hk : k = "extraction_error"
      · exact Or.inr (Or.inl hk)
      · have hb : (k == "extraction_error") = false := by simp [hk]
        exact absurd (by simp [processInvoice, detailsLookup, hex, List.lookup, hb]) h
    | ok ctx =>
      cases hval : validationProcess ctx with
      | error e =>
        by_cases hk : k = "validation_error"
        · exact Or.inr (Or.inr hk)
        · have hb : (k == "validation_error") = false := by simp [hk]
          exact absurd (by simp [processInvoice, detailsLookup, hex, hval, List.lookup, hb]) h
      | ok pr =>
        obtain ⟨b, ctx2⟩ := pr
        exact absurd (by simp [processInvoice, detailsLookup, hex, hval]) h

/-- C2 (witness): the theorem applied to the missing-file envelope, whose
`details` does hold a key. -/
theorem orchestrator_never_export_tags_witness :
    detailsLookup (processInvoice false (fun c => .ok c) "inv.pdf") "file_exists" ≠ none
    ∧ ("file_exists" = "file_exists" ∨ "file_exists" = "extraction_error"
        ∨ "file_exists" = "validation_error") :=
  ⟨fun hcon => Option.noConfusion
      (show (some (Value.bool false) : Option Value) = none from hcon),
    orchestrator_never_export_tags false (fun c => .ok c) "inv.pdf" "file_exists"
      (fun hcon => Option.noConfusion
        (show (some (Value.bool false) : Option Value) = none from hcon))⟩

/-- C3: the extraction stage never performs the OCR retry: its result
does not depend on the OCR-mode oracle, `_process_with_parser` is invoked
at most once (the retry guard `result is None` is unreachable because
`_process_with_parser` always returns a dict or raises), and any context
it returns holds no structured data (the effective `process` reads
`result.get('data')`, a key the result dict never carries). -/
theorem extraction_never_retries_ocr (fe : Bool)
    (sdkStd o1 o2 : Except SDKErr SDKResult) (ctx : Ctx) :
    llamaParseProcess fe sdkStd o1 ctx = llamaParseProcess fe sdkStd o2 ctx
    ∧ (llamaParseProcess fe sdkStd o1 ctx).2 ≤ 1
    ∧ ∀ ctx2, (llamaParseProcess fe sdkStd o1 ctx).1 = .ok ctx2
        → ctx2.structured_data = none := by
  cases fe with
  | false =>
    refine ⟨rfl, by simp [llamaParseProcess], ?_⟩
    intro ctx2 h
    simp [llamaParseProcess] at h
  | true =>
    cases sdkStd with
    | error e =>
      refine ⟨rfl, by simp [llamaParseProcess, processWithParser], ?_⟩
      intro ctx2 h
      simp [llamaParseProcess, processWithParser] at h
    | ok r =>
      refine ⟨rfl, by simp [llamaParseProcess, processWithParser], ?_⟩
      intro ctx2 h
      simp [llamaParseProcess, processWithParser] at h
      rw [← h]
      simp [storeParseResult, pyGet, List.lookup]

/-- C3 (witness): a first attempt whose payload is an empty mapping is
stored as success after a single parser call, with no structured data on
the context — no OCR retry happens. -/
theorem extraction_never_retries_ocr_witness :
    (llamaParseProcess true
        (.ok ⟨.str "job-1", .str "SUCCESS", .dict [], .null, .null⟩)
        (.error ⟨false, "ocr never invoked"⟩)
        { invoice_path := "inv.pdf" }).1
      = .ok { invoice_path := "inv.pdf", job_id := .str "job-1",
              job_status := .str "SUCCESS", structured_data := none,
              markdown_docs := .null, text_docs := .null,
              validation_feedback := none }
    ∧ ({ invoice_path := "inv.pdf", job_id := .str "job-1",
          job_status := .str "SUCCESS", structured_data := none,
          markdown_docs := .null, text_docs := .null,
          validation_feedback := none } : Ctx).structured_data = none :=
  ⟨rfl,
    (extraction_never_retries_ocr true
        (.ok ⟨.str "job-1", .str "SUCCESS", .dict [], .null, .null⟩)
        (.error ⟨false, "ocr never invoked"⟩)
        (.error ⟨false, "ocr never invoked"⟩)
        { invoice_path := "inv.pdf" }).2.2 _ rfl⟩

/-- C9: `_append_to_excel` creates a missing destination with the new
record as its sole row, and on an existing destination yields the prior
rows unmodified, in order, with the flattened new record appended as the
last row. -/
theorem export_append_preserves_rows (rows : List Data) (d : Data) :
    appendToExcel none d = [flattenData d]
    ∧ (appendToExcel (some rows) d).length = rows.length + 1
    ∧ (∀ i, i < rows.length → (appendToExcel (some rows) d)[i]? = rows[i]?)
    ∧ (appendToExcel (some rows) d)[rows.length]? = some (flattenData d) := by
  refine ⟨rfl, by simp [appendToExcel], ?_, ?_⟩
  · intro i hi
    simp [appendToExcel, List.getElem?_append_left hi]
  · show (rows ++ [flattenData d])[rows.length]? = some (flattenData d)
    rw [List.getElem?_append_right (Nat.le_refl _)]
    simp

/-- The record `{invoice_number: "A1", ...}` of the spec's export
scenario. -/
def recA1 : Data :=
  [("invoice_number", .str "A1"), ("date", .str "2024-01-15"),
    ("vendor_name", .str "Acme"), ("total_amount", .num ⟨1, 0⟩),
    ("line_items", .list [])]

/-- The record `{invoice_number: "A2", ...}` of the spec's export
scenario. -/
def recA2 : Data :=
  [("invoice_number", .str "A2"), ("date", .str "2024-01-16"),
    ("vendor_name", .str "Acme"), ("total_amount", .num ⟨2, 0⟩),
    ("line_items", .list [])]

/-- C9 (witness): appending `A1` to an empty destination then `A2` after
it leaves row 0 unchanged. -/
theorem export_append_preserves_rows_witness :
    0 < [flattenData recA1].length
    ∧ appendToExcel none recA1 = [flattenData recA1]
    ∧ (appendToExcel (some [flattenData recA1]) recA2)[0]? = [flattenData recA1][0]?
    ∧ (appendToExcel (some [flattenData recA1]) recA2).length = 2 :=
  ⟨by decide,
    (export_append_preserves_rows [] recA1).1,
    (export_append_preserves_rows [flattenData recA1] recA2).2.2.1 0 (by decide),
    (export_append_preserves_rows [flattenData recA1] recA2).2.1⟩
